import Mathlib

/-!
Verification of the ctrlsys timer subsystem.

Shallow embedding of the timer state machine and store operations from
`src/services/timer.rs`, `src/models/timer.rs`, `src/controllers/timer.rs`
(shared-database mode) and `jobs/timer/src/timer/status.rs`,
`jobs/timer/src/timer/runner.rs`, `jobs/timer/src/timer/service.rs`
(standalone job mode).

Timestamps (`chrono::DateTime<Utc>`) are modelled as integer Unix seconds;
the standalone job's `Instant`/`Duration` pairs are modelled as natural
numbers of milliseconds.  The Postgres table of timers is modelled as a
`List Timer`; each SQL statement becomes the corresponding pure list
transformation (an `UPDATE ... RETURNING` is a map over the rows plus the
list of rows that matched, `fetch_optional` takes the first returned row).
-/

namespace Ctrlsys

namespace Shared

/-- Timer status enum from `src/models/timer.rs` (shared-database mode):
Pending, Running, Completed, Cancelled. -/
inductive TimerStatus where
  | pending
  | running
  | completed
  | cancelled
deriving DecidableEq, Repr

/-- Timer row from `src/models/timer.rs`: id, name, duration_seconds,
created_at, started_at, expires_at, status.  Identifiers are opaque, so the
`Uuid` is modelled as a `Nat`. -/
structure Timer where
  id : Nat
  name : String
  duration_seconds : Int
  created_at : Int
  started_at : Option Int
  expires_at : Option Int
  status : TimerStatus
deriving DecidableEq, Repr

/-- Row predicate of the sweep UPDATE in `TimerService::complete_expired_timers`:
`WHERE status = 'running' AND expires_at <= now`.  A NULL `expires_at`
compares as false in SQL. -/
def sweepMatches (now : Int) (t : Timer) : Bool :=
  decide (t.status = TimerStatus.running) &&
    (match t.expires_at with
     | some e => decide (e ≤ now)
     | none => false)

/-- Effect of the sweep UPDATE on a matched row: `SET status = 'completed'`. -/
def completeRow (t : Timer) : Timer :=
  { t with status := TimerStatus.completed }

/-- Embedding of `TimerService::complete_expired_timers` from
`src/services/timer.rs`: one pass over the table, flipping every row that
matches `sweepMatches` to Completed; the first component is the table after
the UPDATE, the second is the `RETURNING *` result (the updated rows, in
table order). -/
def complete_expired_timers (now : Int) : List Timer → List Timer × List Timer
  | [] => ([], [])
  | t :: rest =>
    let p := complete_expired_timers now rest
    if sweepMatches now t then (completeRow t :: p.1, completeRow t :: p.2)
    else (t :: p.1, p.2)

/-- Embedding of `TimerService::get_by_id`: `SELECT * FROM timers WHERE id = $1`
with `fetch_optional`, i.e. the first row with that id. -/
def get_by_id (id : Nat) (store : List Timer) : Option Timer :=
  store.find? (fun t => decide (t.id = id))

/-- Fields written by the start UPDATE in `TimerService::start`:
`SET status = 'running', started_at = now, expires_at = expires`. -/
def startRow (now expires : Int) (t : Timer) : Timer :=
  { t with
    status := TimerStatus.running
    started_at := some now
    expires_at := some expires }

/-- Embedding of `TimerService::start` from `src/services/timer.rs`: fetch the
timer by id (returning `none` when absent, mapped to NotFound by the caller);
if its status is not Pending return it unchanged without touching the store;
otherwise compute `expires_at = now + duration_seconds` and run
`UPDATE ... SET status='running', started_at=now, expires_at=expires WHERE id = $4`.
The first component is the returned row, the second the table afterwards. -/
def start (now : Int) (id : Nat) (store : List Timer) : Option Timer × List Timer :=
  match get_by_id id store with
  | none => (none, store)
  | some t =>
    if t.status ≠ TimerStatus.pending then (some t, store)
    else
      let expires := now + t.duration_seconds
      (some (startRow now expires t),
       store.map (fun u => if u.id = id then startRow now expires u else u))

/-- Row predicate of the cancel UPDATE in `TimerService::cancel`:
`WHERE id = $2 AND status != 'completed'`. -/
def cancelMatches (id : Nat) (t : Timer) : Bool :=
  decide (t.id = id) && decide (t.status ≠ TimerStatus.completed)

/-- Effect of the cancel UPDATE on a matched row: `SET status = 'cancelled'`. -/
def cancelRow (t : Timer) : Timer :=
  { t with status := TimerStatus.cancelled }

/-- Embedding of `TimerService::cancel` from `src/services/timer.rs`:
`UPDATE timers SET status='cancelled' WHERE id = $2 AND status != 'completed'
RETURNING *` with `fetch_optional`: the first matched row (after the update)
or `none` when no row matched.  The second component is the table afterwards. -/
def cancel (id : Nat) (store : List Timer) : Option Timer × List Timer :=
  ((store.find? (cancelMatches id)).map cancelRow,
   store.map (fun t => if cancelMatches id t then cancelRow t else t))

/-- Status ordering key of the `ORDER BY CASE` in `TimerService::list`:
running 1, pending 2, completed 3, cancelled 4. -/
def statusPriority : TimerStatus → Nat
  | TimerStatus.running => 1
  | TimerStatus.pending => 2
  | TimerStatus.completed => 3
  | TimerStatus.cancelled => 4

/-- Row ordering of `TimerService::list`: by `statusPriority` ascending, then
`created_at` descending. -/
def listOrder (a b : Timer) : Prop :=
  statusPriority a.status < statusPriority b.status ∨
    (statusPriority a.status = statusPriority b.status ∧ b.created_at ≤ a.created_at)

instance : DecidableRel listOrder := by
  intro a b
  unfold listOrder
  infer_instance

instance : IsTotal Timer listOrder := by
  constructor
  intro a b
  rcases Nat.lt_trichotomy (statusPriority a.status) (statusPriority b.status) with h | h | h
  · exact Or.inl (Or.inl h)
  · rcases Int.le_total b.created_at a.created_at with hc | hc
    · exact Or.inl (Or.inr ⟨h, hc⟩)
    · exact Or.inr (Or.inr ⟨h.symm, hc⟩)
  · exact Or.inr (Or.inl h)

instance : IsTrans Timer listOrder := by
  constructor
  rintro a b c (hab | ⟨hab, hab2⟩) (hbc | ⟨hbc, hbc2⟩)
  · exact Or.inl (Nat.lt_trans hab hbc)
  · exact Or.inl (hbc ▸ hab)
  · exact Or.inl (hab ▸ hbc)
  · exact Or.inr ⟨hab.trans hbc, Int.le_trans hbc2 hab2⟩

/-- Row filter of `TimerService::list`:
`WHERE status != 'completed' OR (status = 'completed' AND created_at >= cutoff)`. -/
def listKeeps (cutoff : Int) (t : Timer) : Bool :=
  decide (t.status ≠ TimerStatus.completed) ||
    (decide (t.status = TimerStatus.completed) && decide (cutoff ≤ t.created_at))

/-- Embedding of `TimerService::list` from `src/services/timer.rs`: the cutoff
is `now - 24h`; keep the rows passing `listKeeps` and sort them by
`listOrder` (status priority, then creation time descending). -/
def list (now : Int) (store : List Timer) : List Timer :=
  List.insertionSort listOrder (store.filter (listKeeps (now - 86400)))

/-- Response shape from `src/models/timer.rs` (`TimerResponse`). -/
structure TimerResponse where
  id : Nat
  name : String
  duration_seconds : Int
  status : TimerStatus
  created_at : Int
  started_at : Option Int
  expires_at : Option Int
  remaining_seconds : Option Int
deriving DecidableEq, Repr

/-- Embedding of `impl From<Timer> for TimerResponse` from
`src/models/timer.rs`: `remaining_seconds` is derived on read as
`(expires - now).num_seconds().max(0)` when `expires_at` is set,
absent when it is not. -/
def toResponse (now : Int) (t : Timer) : TimerResponse :=
  { id := t.id
    name := t.name
    duration_seconds := t.duration_seconds
    status := t.status
    created_at := t.created_at
    started_at := t.started_at
    expires_at := t.expires_at
    remaining_seconds := t.expires_at.map (fun e => max (e - now) 0) }

/-- Error type of the HTTP controller layer, from `src/controllers/timer.rs`
(`AppError`): only NotFound and Internal exist; NotFound renders as 404. -/
inductive AppError where
  | notFound
  | internal
deriving DecidableEq, Repr

/-- Embedding of the `cancel_timer` handler from `src/controllers/timer.rs`:
`TimerService::cancel(...).ok_or(AppError::NotFound)` then `to_response`.
The second component is the table after the handler runs. -/
def cancel_timer (now : Int) (id : Nat) (store : List Timer) :
    Except AppError TimerResponse × List Timer :=
  match cancel id store with
  | (none, s) => (Except.error AppError.notFound, s)
  | (some t, s) => (Except.ok (toResponse now t), s)

/-- Store invariant used where a claim needs it: ids are primary keys, so no
two rows share an id. -/
def uniqueIds (store : List Timer) : Prop :=
  (store.map Timer.id).Nodup

/-- Concrete Pending row used to evaluate the operations. -/
def demoPending : Timer :=
  { id := 1, name := "a", duration_seconds := 5, created_at := 10,
    started_at := none, expires_at := none, status := TimerStatus.pending }

/-- Concrete Running row used to evaluate the operations. -/
def demoRunning : Timer :=
  { id := 2, name := "b", duration_seconds := 5, created_at := 10,
    started_at := some 10, expires_at := some 15, status := TimerStatus.running }

/-- Concrete Completed row used to evaluate the operations. -/
def demoCompleted : Timer :=
  { id := 3, name := "c", duration_seconds := 5, created_at := 10,
    started_at := some 10, expires_at := some 15, status := TimerStatus.completed }

/-- Concrete Cancelled row used to evaluate the operations. -/
def demoCancelled : Timer :=
  { id := 4, name := "d", duration_seconds := 5, created_at := 10,
    started_at := some 10, expires_at := some 15, status := TimerStatus.cancelled }

/-- Concrete Cancelled row created long before the 24-hour cutoff. -/
def oldCancelled : Timer :=
  { id := 9, name := "e", duration_seconds := 5, created_at := 0,
    started_at := some 0, expires_at := some 5, status := TimerStatus.cancelled }

end Shared

namespace Standalone

/-- Timer state enum from `jobs/timer/src/timer/status.rs` (standalone job
mode): Starting, Running, Completed, Failed. -/
inductive TimerState where
  | starting
  | running
  | completed
  | failed
deriving DecidableEq, Repr

/-- Embedding of `TimerState::to_proto_value`. -/
def TimerState.to_proto_value : TimerState → Int
  | TimerState.starting => 1
  | TimerState.running => 2
  | TimerState.completed => 3
  | TimerState.failed => 4

/-- Embedding of `TimerState::is_terminal`:
`matches!(self, Completed | Failed)`. -/
def TimerState.is_terminal : TimerState → Bool
  | TimerState.completed => true
  | TimerState.failed => true
  | _ => false

/-- Embedding of `TimerState::is_active`:
`matches!(self, Starting | Running)`. -/
def TimerState.is_active : TimerState → Bool
  | TimerState.starting => true
  | TimerState.running => true
  | _ => false

/-- Timer metadata from `jobs/timer/src/timer/status.rs` (`TimerMetadata`). -/
structure TimerMetadata where
  timer_id : String
  name : String
  labels : List (String × String)
  duration_seconds : Int
  created_at : Int
  created_by : String
deriving DecidableEq, Repr

/-- Standalone timer status record from `jobs/timer/src/timer/status.rs`
(`TimerStatus`).  `start_time` is the `Instant` captured at creation and
`duration` the configured run length, both in whole milliseconds. -/
structure TimerStatus where
  metadata : TimerMetadata
  state : TimerState
  start_time : Nat
  started_at : Int
  duration : Nat
  error_message : Option String
deriving DecidableEq, Repr

/-- Embedding of `TimerStatus::elapsed`: `self.start_time.elapsed()`, i.e. the
milliseconds from `start_time` to the current instant `now`. -/
def elapsed (s : TimerStatus) (now : Nat) : Nat :=
  now - s.start_time

/-- Embedding of `TimerStatus::remaining`:
`self.duration.saturating_sub(self.elapsed())` (natural subtraction is
saturating). -/
def remaining (s : TimerStatus) (now : Nat) : Nat :=
  s.duration - elapsed s now

/-- Embedding of `TimerStatus::should_complete`:
`self.elapsed() >= self.duration`. -/
def should_complete (s : TimerStatus) (now : Nat) : Bool :=
  decide (s.duration ≤ elapsed s now)

/-- Embedding of `TimerStatus::update_state` from
`jobs/timer/src/timer/status.rs`: Starting becomes Running once elapsed time
exceeds the 100ms grace period; Running becomes Completed once
`should_complete` holds; Completed and Failed do not change. -/
def update_state (s : TimerStatus) (now : Nat) : TimerStatus :=
  match s.state with
  | TimerState.starting =>
    if 100 < elapsed s now then { s with state := TimerState.running } else s
  | TimerState.running =>
    if should_complete s now then { s with state := TimerState.completed } else s
  | TimerState.completed => s
  | TimerState.failed => s

/-- Per-tick state transition as the spec describes it (written from the spec
sentence of C7, to be compared with `update_state`): Starting → Running after
the 100ms grace period, Running → Completed once elapsed reaches the
configured duration, terminal states unchanged. -/
def specNextState (st : TimerState) (elapsedMs durationMs : Nat) : TimerState :=
  match st with
  | TimerState.starting =>
    if 100 < elapsedMs then TimerState.running else TimerState.starting
  | TimerState.running =>
    if durationMs ≤ elapsedMs then TimerState.completed else TimerState.running
  | TimerState.completed => TimerState.completed
  | TimerState.failed => TimerState.failed

/-- Embedding of `TimerStatus::mark_failed`: set state to Failed and record
the error message. -/
def mark_failed (s : TimerStatus) (err : String) : TimerStatus :=
  { s with
    state := TimerState.failed
    error_message := some err }

/-- Stream/status update message from the generated protobuf types
(`StreamTimerResponse`). -/
structure StreamTimerResponse where
  timer_id : String
  state : Int
  elapsed_seconds : Int
  remaining_seconds : Int
  timestamp : Int
deriving DecidableEq, Repr

/-- Embedding of `TimerStatus::elapsed_seconds`: `elapsed().as_secs()`. -/
def elapsed_seconds (s : TimerStatus) (now : Nat) : Int :=
  Int.ofNat (elapsed s now / 1000)

/-- Embedding of `TimerStatus::remaining_seconds`: `remaining().as_secs()`. -/
def remaining_seconds (s : TimerStatus) (now : Nat) : Int :=
  Int.ofNat (remaining s now / 1000)

/-- Outcome of the gRPC status layer for a request, from `tonic::Status` as
used in `jobs/timer/src/timer/service.rs`. -/
inductive GrpcCode where
  | invalidArgument
  | notFound
  | internal
deriving DecidableEq, Repr

/-- Embedding of `TimerServiceImpl::validate_timer_id`: empty ids are
InvalidArgument; ids other than the configured timer are NotFound. -/
def validate_timer_id (cfgId reqId : String) : Option GrpcCode :=
  if reqId = "" then some GrpcCode.invalidArgument
  else if reqId ≠ cfgId then some GrpcCode.notFound
  else none

/-- Initial snapshot event of `TimerServiceImpl::stream_timer`: built from
the current status before any published event is forwarded. -/
def snapshotEvent (s : TimerStatus) (now : Nat) (ts : Int) : StreamTimerResponse :=
  { timer_id := s.metadata.timer_id
    state := s.state.to_proto_value
    elapsed_seconds := elapsed_seconds s now
    remaining_seconds := remaining_seconds s now
    timestamp := ts }

/-- Forwarding loop of `TimerServiceImpl::stream_timer`: receive each
published event in order and forward it only when its `timer_id` equals the
requested id. -/
def forwardLoop (reqId : String) : List StreamTimerResponse → List StreamTimerResponse
  | [] => []
  | e :: rest =>
    if e.timer_id = reqId then e :: forwardLoop reqId rest
    else forwardLoop reqId rest

/-- Embedding of `TimerServiceImpl::stream_timer` over a finite trace of
published events: validate the requested id, deliver the synthesized snapshot
of the current status first, then the forwarded subsequence of published
events. -/
def stream_timer (cfgId : String) (s : TimerStatus) (now : Nat) (ts : Int)
    (reqId : String) (published : List StreamTimerResponse) :
    Except GrpcCode (List StreamTimerResponse) :=
  match validate_timer_id cfgId reqId with
  | some c => Except.error c
  | none => Except.ok (snapshotEvent s now ts :: forwardLoop reqId published)

/-- Error type from `jobs/timer/src/error.rs` as used by the runner: a timer
error or a control-plane error, each with a message. -/
inductive TimerError where
  | timer (msg : String)
  | controlPlane (msg : String)
deriving DecidableEq, Repr

/-- Possible outcomes of the completion-report RPC attempt in
`TimerRunner::report_completion`: the connect step can time out (10s bound)
or fail, the call step can time out (30s bound) or fail, or the control plane
replies with an `acknowledged` flag. -/
inductive RpcOutcome where
  | connectTimeout
  | connectFailed
  | callTimeout
  | callFailed
  | reply (acknowledged : Bool)
deriving DecidableEq, Repr

/-- Embedding of `TimerRunner::report_completion` from
`jobs/timer/src/timer/runner.rs`: every failing outcome maps to a
control-plane error; a reply with `acknowledged = false` is also a
control-plane error; only an acknowledged reply is Ok. -/
def report_completion : RpcOutcome → Except TimerError Unit
  | RpcOutcome.connectTimeout =>
    Except.error (TimerError.controlPlane "Timeout connecting to control plane")
  | RpcOutcome.connectFailed =>
    Except.error (TimerError.controlPlane "Failed to connect to control plane")
  | RpcOutcome.callTimeout =>
    Except.error (TimerError.controlPlane "Timeout reporting completion to control plane")
  | RpcOutcome.callFailed =>
    Except.error (TimerError.controlPlane "gRPC error reporting completion")
  | RpcOutcome.reply true => Except.ok ()
  | RpcOutcome.reply false =>
    Except.error (TimerError.controlPlane "Control plane did not acknowledge completion")

/-- Embedding of the Completed branch of `TimerRunner::run`: on reaching
Completed the runner performs the completion report once; on success it
returns Ok leaving the status untouched, on any error it marks the timer
Failed and returns that error as the job result. -/
def on_completed (s : TimerStatus) (outcome : RpcOutcome) :
    TimerStatus × Except TimerError Unit :=
  match report_completion outcome with
  | Except.ok _ => (s, Except.ok ())
  | Except.error e => (mark_failed s "Failed to report completion", Except.error e)

/-- Concrete metadata used to evaluate the standalone operations. -/
def demoMetadata : TimerMetadata :=
  { timer_id := "t1", name := "demo", labels := [],
    duration_seconds := 5, created_at := 0, created_by := "u" }

/-- Concrete standalone status used to evaluate the standalone operations. -/
def demoStatus : TimerStatus :=
  { metadata := demoMetadata, state := TimerState.running,
    start_time := 0, started_at := 0, duration := 5000, error_message := none }

/-- Concrete standalone status already in the Completed state. -/
def demoCompletedStatus : TimerStatus :=
  { metadata := demoMetadata, state := TimerState.completed,
    start_time := 0, started_at := 0, duration := 5000, error_message := none }

/-- Concrete published event matching the configured timer id. -/
def demoEventMatching : StreamTimerResponse :=
  { timer_id := "t1", state := 2, elapsed_seconds := 1,
    remaining_seconds := 4, timestamp := 1 }

/-- Concrete published event for a different timer id. -/
def demoEventOther : StreamTimerResponse :=
  { timer_id := "t2", state := 2, elapsed_seconds := 1,
    remaining_seconds := 4, timestamp := 1 }

end Standalone

end Ctrlsys

namespace Ctrlsys

namespace Shared

theorem complete_expired_store_eq (now : Int) (store : List Timer) :
    (complete_expired_timers now store).1 =
      store.map (fun t => if sweepMatches now t then completeRow t else t) := by
  induction store with
  | nil => rfl
  | cons t rest ih =>
    by_cases h : sweepMatches now t
    · simp [complete_expired_timers, h, ih]
    · simp [complete_expired_timers, h, ih]

theorem complete_expired_returned_eq (now : Int) (store : List Timer) :
    (complete_expired_timers now store).2 =
      (store.filter (sweepMatches now)).map completeRow := by
  induction store with
  | nil => rfl
  | cons t rest ih =>
    by_cases h : sweepMatches now t
    · simp [complete_expired_timers, h, ih]
    · simp [complete_expired_timers, h, ih]

/-- C1: `sweep_expired(now)` (implemented by `complete_expired_timers`)
transitions to Completed exactly the rows that are Running with
`expires_at ≤ now`, returns exactly those rows, and changes no other row
and no field other than `status` of the transitioned rows. -/
theorem sweep_expired_spec (now : Int) (store : List Timer) :
    ((complete_expired_timers now store).1 =
        store.map (fun t => if sweepMatches now t then completeRow t else t))
    ∧ ((complete_expired_timers now store).2 =
        (store.filter (sweepMatches now)).map completeRow)
    ∧ (∀ t : Timer, sweepMatches now t = true ↔
        (t.status = TimerStatus.running ∧ ∃ e, t.expires_at = some e ∧ e ≤ now))
    ∧ (∀ t : Timer, (completeRow t).status = TimerStatus.completed
        ∧ (completeRow t).id = t.id ∧ (completeRow t).name = t.name
        ∧ (completeRow t).duration_seconds = t.duration_seconds
        ∧ (completeRow t).created_at = t.created_at
        ∧ (completeRow t).started_at = t.started_at
        ∧ (completeRow t).expires_at = t.expires_at) := by
  refine ⟨complete_expired_store_eq now store, complete_expired_returned_eq now store, ?_, ?_⟩
  · intro t
    constructor
    · intro h
      simp only [sweepMatches, Bool.and_eq_true, decide_eq_true_eq] at h
      refine ⟨h.1, ?_⟩
      rcases he : t.expires_at with _ | e
      · rw [he] at h; simp at h
      · rw [he] at h
        simp only [decide_eq_true_eq] at h
        exact ⟨e, rfl, h.2⟩
    · rintro ⟨hs, e, he, hle⟩
      simp [sweepMatches, hs, he, hle]
  · intro t
    exact ⟨rfl, rfl, rfl, rfl, rfl, rfl, rfl⟩

end Shared

end Ctrlsys

namespace Ctrlsys

namespace Standalone

theorem forwardLoop_eq_filter (reqId : String) (events : List StreamTimerResponse) :
    forwardLoop reqId events = events.filter (fun e => decide (e.timer_id = reqId)) := by
  induction events with
  | nil => rfl
  | cons e rest ih =>
    by_cases h : e.timer_id = reqId
    · simp [forwardLoop, h, ih]
    · simp [forwardLoop, h, ih]

/-- C10: for every standalone timer state, `is_active` is the negation of
`is_terminal`: Starting and Running are active and non-terminal, Completed
and Failed terminal and non-active, so the runner's terminal exit condition
is equivalent to the timer no longer being active. -/
theorem is_active_eq_not_terminal :
    ∀ s : TimerState, s.is_active = !s.is_terminal := by
  intro s
  cases s <;> rfl

/-- C7: each standalone tick's `update_state` performs exactly the claimed
transitions — Starting → Running once elapsed time exceeds the 100ms grace
period, Running → Completed once `should_complete` (elapsed ≥ duration)
holds, Completed and Failed unchanged (`specNextState` is written from the
spec sentence) — and changes no field other than `state`. -/
theorem update_state_spec (s : TimerStatus) (now : Nat) :
    (update_state s now).state = specNextState s.state (elapsed s now) s.duration
    ∧ (update_state s now).metadata = s.metadata
    ∧ (update_state s now).start_time = s.start_time
    ∧ (update_state s now).started_at = s.started_at
    ∧ (update_state s now).duration = s.duration
    ∧ (update_state s now).error_message = s.error_message := by
  rcases s with ⟨md, st, t0, sa, d, em⟩
  cases st <;>
    simp only [update_state, specNextState, should_complete, elapsed,
      decide_eq_true_eq] <;>
    (try split) <;> simp_all

/-- C9: on reaching Completed the standalone runner performs the completion
report once (the embedding `on_completed` consumes a single RPC outcome); an
acknowledged reply leaves the status untouched and yields Ok, while every
other outcome — including an RPC that succeeds but returns
`acknowledged = false`, exactly like a transport failure — marks the timer
Failed and propagates a control-plane error as the job result. -/
theorem on_completed_spec (s : TimerStatus) (outcome : RpcOutcome) :
    (outcome = RpcOutcome.reply true → on_completed s outcome = (s, Except.ok ()))
    ∧ (outcome ≠ RpcOutcome.reply true →
        (on_completed s outcome).1.state = TimerState.failed
        ∧ (on_completed s outcome).1.error_message = some "Failed to report completion"
        ∧ ∃ m, (on_completed s outcome).2 = Except.error (TimerError.controlPlane m))
    ∧ (∃ m, report_completion (RpcOutcome.reply false) =
        Except.error (TimerError.controlPlane m)) := by
  refine ⟨?_, ?_, ⟨"Control plane did not acknowledge completion", rfl⟩⟩
  · rintro rfl
    rfl
  · intro h
    rcases outcome with _ | _ | _ | _ | ack
    · exact ⟨rfl, rfl, _, rfl⟩
    · exact ⟨rfl, rfl, _, rfl⟩
    · exact ⟨rfl, rfl, _, rfl⟩
    · exact ⟨rfl, rfl, _, rfl⟩
    · cases ack
      · exact ⟨rfl, rfl, _, rfl⟩
      · exact absurd rfl h

theorem on_completed_spec_witness :
    on_completed demoStatus (RpcOutcome.reply true) = (demoStatus, Except.ok ())
    ∧ ((on_completed demoStatus (RpcOutcome.reply false)).1.state = TimerState.failed
        ∧ (on_completed demoStatus (RpcOutcome.reply false)).1.error_message =
            some "Failed to report completion"
        ∧ ∃ m, (on_completed demoStatus (RpcOutcome.reply false)).2 =
            Except.error (TimerError.controlPlane m)) :=
  ⟨(on_completed_spec demoStatus (RpcOutcome.reply true)).1 rfl,
   (on_completed_spec demoStatus (RpcOutcome.reply false)).2.1 (by decide)⟩

/-- C8: for a stream-status subscription whose (non-empty) requested id
matches the configured timer, the delivered stream is the synthesized
snapshot of the current status — reflecting the state, elapsed and remaining
of the status at subscription time — followed by exactly the subsequence of
published events whose `timer_id` equals the requested id; non-matching
events are silently dropped. -/
theorem stream_timer_spec (cfgId reqId : String) (s : TimerStatus) (now : Nat)
    (ts : Int) (published : List StreamTimerResponse)
    (h1 : reqId = cfgId) (h2 : reqId ≠ "") :
    stream_timer cfgId s now ts reqId published =
      Except.ok (snapshotEvent s now ts ::
        published.filter (fun e => decide (e.timer_id = reqId)))
    ∧ (snapshotEvent s now ts).timer_id = s.metadata.timer_id
    ∧ (snapshotEvent s now ts).state = s.state.to_proto_value
    ∧ (snapshotEvent s now ts).elapsed_seconds = elapsed_seconds s now
    ∧ (snapshotEvent s now ts).remaining_seconds = remaining_seconds s now := by
  subst h1
  refine ⟨?_, rfl, rfl, rfl, rfl⟩
  rw [← forwardLoop_eq_filter]
  simp [stream_timer, validate_timer_id, h2]

theorem stream_timer_spec_witness :
    stream_timer "t1" demoStatus 1000 2 "t1" [demoEventMatching, demoEventOther] =
      Except.ok [snapshotEvent demoStatus 1000 2, demoEventMatching] := by
  have h := (stream_timer_spec "t1" "t1" demoStatus 1000 2
    [demoEventMatching, demoEventOther] rfl (by decide)).1
  rw [h]
  rfl

end Standalone

end Ctrlsys

namespace Ctrlsys

namespace Shared

theorem cancelRow_eq_self {t : Timer} (h : t.status = TimerStatus.cancelled) :
    cancelRow t = t := by
  rcases t with ⟨i, n, d, c, sa, e, st⟩
  have h2 : st = TimerStatus.cancelled := h
  subst h2
  rfl

theorem start_store_cases (now : Int) (id : Nat) (store : List Timer) :
    (start now id store).2 = store
    ∨ ∃ t0, get_by_id id store = some t0 ∧ t0.status = TimerStatus.pending ∧
        (start now id store).2 =
          store.map (fun u =>
            if u.id = id then startRow now (now + t0.duration_seconds) u else u) := by
  rcases hf : get_by_id id store with _ | t0
  · left
    simp [start, hf]
  · by_cases hp : t0.status = TimerStatus.pending
    · right
      exact ⟨t0, rfl, hp, by simp [start, hf, hp]⟩
    · left
      simp [start, hf, hp]

/-- C2: a timer whose status is terminal never changes again: in shared mode
(terminal means Completed or Cancelled) the row is left untouched, field for
field, by `start`, by `cancel` and by the sweep, and in standalone mode
(terminal means Completed or Failed) `update_state` returns the status record
unchanged. -/
theorem terminal_timers_frozen (now : Int) (id : Nat) (store : List Timer)
    (i : Nat) (t : Timer) (hu : uniqueIds store) (hget : store[i]? = some t)
    (ht : t.status = TimerStatus.completed ∨ t.status = TimerStatus.cancelled) :
    (start now id store).2[i]? = some t
    ∧ (cancel id store).2[i]? = some t
    ∧ (complete_expired_timers now store).1[i]? = some t
    ∧ (∀ (s : Standalone.TimerStatus) (m : Nat),
        s.state = Standalone.TimerState.completed ∨ s.state = Standalone.TimerState.failed →
        Standalone.update_state s m = s) := by
  have htmem : t ∈ store := List.getElem?_mem hget
  have hnotpending : t.status ≠ TimerStatus.pending := by
    rcases ht with h | h <;> simp [h]
  have hnotrunning : t.status ≠ TimerStatus.running := by
    rcases ht with h | h <;> simp [h]
  refine ⟨?_, ?_, ?_, ?_⟩
  · rcases start_store_cases now id store with h | ⟨t0, hf, hp, h⟩
    · rw [h, hget]
    · rw [h, List.getElem?_map, hget]
      have htid : t.id ≠ id := by
        intro hid
        have ht0mem : t0 ∈ store := List.mem_of_find?_eq_some hf
        have ht0id : t0.id = id := by simpa using List.find?_some hf
        have heq : t = t0 :=
          List.inj_on_of_nodup_map hu htmem ht0mem (by rw [hid, ht0id])
        exact hnotpending (by rw [heq, hp])
      simp [htid]
  · show (store.map fun u => if cancelMatches id u then cancelRow u else u)[i]? = some t
    rw [List.getElem?_map, hget]
    by_cases hm : cancelMatches id t
    · have hc : t.status = TimerStatus.cancelled := by
        rcases ht with h | h
        · simp [cancelMatches, h] at hm
        · exact h
      simp [hm, cancelRow_eq_self hc]
    · simp [hm]
  · rw [complete_expired_store_eq, List.getElem?_map, hget]
    have hs : sweepMatches now t = false := by
      simp [sweepMatches, hnotrunning]
    simp [hs]
  · intro s m hs
    rcases hs with h | h <;> simp [Standalone.update_state, h]

theorem terminal_timers_frozen_witness :
    (start 50 3 [demoCompleted]).2[0]? = some demoCompleted
    ∧ (cancel 3 [demoCompleted]).2[0]? = some demoCompleted
    ∧ (complete_expired_timers 50 [demoCompleted]).1[0]? = some demoCompleted
    ∧ Standalone.update_state Standalone.demoCompletedStatus 9999 =
        Standalone.demoCompletedStatus := by
  have h := terminal_timers_frozen 50 3 [demoCompleted] 0 demoCompleted
    (by simp [uniqueIds]) rfl (Or.inl rfl)
  exact ⟨h.1, h.2.1, h.2.2.1, h.2.2.2 Standalone.demoCompletedStatus 9999 (Or.inl rfl)⟩

/-- C4: `start(id)` finds nothing exactly when no row has the id (NotFound in
the controller); a non-Pending timer is returned unchanged with the store
untouched; a Pending timer is returned with status Running, `started_at = now`
and `expires_at = started_at + duration_seconds` set together, every other
field unchanged, and the store rewritten accordingly. -/
theorem start_spec (now : Int) (id : Nat) (store : List Timer) :
    (get_by_id id store = none ↔ ∀ u ∈ store, u.id ≠ id)
    ∧ (get_by_id id store = none → start now id store = (none, store))
    ∧ (∀ t, get_by_id id store = some t → t.status ≠ TimerStatus.pending →
        start now id store = (some t, store))
    ∧ (∀ t, get_by_id id store = some t → t.status = TimerStatus.pending →
        (start now id store).1 = some (startRow now (now + t.duration_seconds) t)
        ∧ (startRow now (now + t.duration_seconds) t).status = TimerStatus.running
        ∧ (startRow now (now + t.duration_seconds) t).started_at = some now
        ∧ (startRow now (now + t.duration_seconds) t).expires_at =
            some (now + t.duration_seconds)
        ∧ (startRow now (now + t.duration_seconds) t).id = t.id
        ∧ (startRow now (now + t.duration_seconds) t).name = t.name
        ∧ (startRow now (now + t.duration_seconds) t).duration_seconds =
            t.duration_seconds
        ∧ (startRow now (now + t.duration_seconds) t).created_at = t.created_at
        ∧ (start now id store).2 =
            store.map (fun u =>
              if u.id = id then startRow now (now + t.duration_seconds) u else u)) := by
  refine ⟨?_, ?_, ?_, ?_⟩
  · simp [get_by_id, List.find?_eq_none]
  · intro h
    simp [start, h]
  · intro t hf hp
    simp [start, hf, hp]
  · intro t hf hp
    refine ⟨?_, rfl, rfl, rfl, rfl, rfl, rfl, rfl, ?_⟩ <;> simp [start, hf, hp]

theorem start_spec_witness :
    (start 50 1 [demoPending]).1 =
      some (startRow 50 (50 + demoPending.duration_seconds) demoPending)
    ∧ start 50 2 [demoRunning] = (some demoRunning, [demoRunning])
    ∧ start 50 7 [demoPending] = (none, [demoPending]) := by
  refine ⟨?_, ?_, ?_⟩
  · exact ((start_spec 50 1 [demoPending]).2.2.2 demoPending rfl rfl).1
  · exact (start_spec 50 2 [demoRunning]).2.2.1 demoRunning rfl (by decide)
  · exact (start_spec 50 7 [demoPending]).2.1 rfl

end Shared

end Ctrlsys

namespace Ctrlsys

namespace Shared

/-- C3 counterexample: `demoCompleted` (id 3) is present and Completed, yet
DELETE yields exactly `AppError.notFound` — the same value produced for the
absent id 99 — so the rejection is not client-distinguishable from NotFound
(the controller error type has no InvalidTransition/Conflict variant). -/
theorem cancel_completed_counterexample :
    demoCompleted.status = TimerStatus.completed
    ∧ get_by_id 3 [demoCompleted] = some demoCompleted
    ∧ (cancel_timer 50 3 [demoCompleted]).1 = Except.error AppError.notFound
    ∧ (cancel_timer 50 99 [demoCompleted]).1 = Except.error AppError.notFound :=
  ⟨rfl, rfl, rfl, rfl⟩

/-- C3 amended: cancelling an already-Completed timer is rejected, but the
rejection surfaces as `AppError.notFound` (HTTP 404), indistinguishable from
a missing id; cancelling a timer in any non-Completed status — in particular
one already Cancelled — succeeds idempotently, returning the timer with
status Cancelled rather than an error. -/
theorem cancel_spec (now : Int) (id : Nat) (store : List Timer)
    (hu : uniqueIds store) :
    (∀ t ∈ store, t.id = id → t.status = TimerStatus.completed →
        (cancel_timer now id store).1 = Except.error AppError.notFound)
    ∧ (∀ t ∈ store, t.id = id → t.status = TimerStatus.cancelled →
        ∃ r, (cancel_timer now id store).1 = Except.ok r
          ∧ r.status = TimerStatus.cancelled ∧ r.id = id)
    ∧ (∀ t ∈ store, t.id = id → t.status ≠ TimerStatus.completed →
        ∃ r, (cancel_timer now id store).1 = Except.ok r
          ∧ r.status = TimerStatus.cancelled ∧ r.id = id) := by
  have key : ∀ t ∈ store, t.id = id → t.status ≠ TimerStatus.completed →
      ∃ r, (cancel_timer now id store).1 = Except.ok r
        ∧ r.status = TimerStatus.cancelled ∧ r.id = id := by
    intro t htmem hid hc
    rcases hfind : store.find? (cancelMatches id) with _ | u
    · exfalso
      rw [List.find?_eq_none] at hfind
      have hft := hfind t htmem
      simp [cancelMatches, hid, hc] at hft
    · have hu2 := List.find?_some hfind
      have huid : u.id = id := by
        simp only [cancelMatches, Bool.and_eq_true, decide_eq_true_eq] at hu2
        exact hu2.1
      refine ⟨toResponse now (cancelRow u), ?_, rfl, huid⟩
      simp [cancel_timer, cancel, hfind]
  refine ⟨?_, ?_, key⟩
  · intro t htmem hid hc
    have hnone : store.find? (cancelMatches id) = none := by
      rw [List.find?_eq_none]
      intro u humem
      by_cases huid : u.id = id
      · have heq : u = t :=
          List.inj_on_of_nodup_map hu humem htmem (by rw [huid, hid])
        simp [cancelMatches, heq, hc]
      · simp [cancelMatches, huid]
    simp [cancel_timer, cancel, hnone]
  · intro t htmem hid hc
    exact key t htmem hid (by simp [hc])

theorem cancel_spec_witness :
    (cancel_timer 50 3 [demoCompleted, demoCancelled]).1 =
      Except.error AppError.notFound
    ∧ (∃ r, (cancel_timer 50 4 [demoCompleted, demoCancelled]).1 = Except.ok r
        ∧ r.status = TimerStatus.cancelled ∧ r.id = 4) := by
  constructor
  · exact (cancel_spec 50 3 [demoCompleted, demoCancelled]
      (by simp [uniqueIds, demoCompleted, demoCancelled])).1
      demoCompleted (by simp) rfl rfl
  · exact (cancel_spec 50 4 [demoCompleted, demoCancelled]
      (by simp [uniqueIds, demoCompleted, demoCancelled])).2.1
      demoCancelled (by simp) rfl rfl

/-- C5 counterexample: `oldCancelled` is Cancelled and was created long
before the 24-hour window preceding `now = 1000000`, yet `list` still returns
it — the retention filter hides only old Completed rows, never Cancelled
ones, so the claim's exclusion set is wrong. -/
theorem list_retention_counterexample :
    oldCancelled.status = TimerStatus.cancelled
    ∧ oldCancelled.created_at < 1000000 - 86400
    ∧ list 1000000 [oldCancelled] = [oldCancelled] := by
  refine ⟨rfl, by decide, rfl⟩

/-- C5 amended: `list()` returns the stored timers sorted by status priority
(Running, then Pending, then Completed, then Cancelled) and within a status
by `created_at` descending, and it excludes exactly the Completed timers
created more than 24 hours before now — Cancelled timers are always listed —
while `get_by_id` still finds any stored row regardless of status or age. -/
theorem list_spec (now : Int) (store : List Timer) :
    List.Sorted listOrder (list now store)
    ∧ (∀ t, t ∈ list now store ↔
        t ∈ store ∧ (t.status ≠ TimerStatus.completed ∨ now - 86400 ≤ t.created_at))
    ∧ (∀ id, (∃ t ∈ store, t.id = id) →
        ∃ u, get_by_id id store = some u ∧ u.id = id) := by
  refine ⟨?_, ?_, ?_⟩
  · unfold list
    exact List.sorted_insertionSort listOrder _
  · intro t
    rw [list, List.mem_insertionSort, List.mem_filter]
    constructor
    · rintro ⟨hmem, hk⟩
      refine ⟨hmem, ?_⟩
      by_cases hc : t.status = TimerStatus.completed
      · right
        simp only [listKeeps, hc, Bool.or_eq_true, Bool.and_eq_true,
          decide_eq_true_eq] at hk
        rcases hk with h | h
        · exact absurd rfl h
        · exact h.2
      · exact Or.inl hc
    · rintro ⟨hmem, hk⟩
      refine ⟨hmem, ?_⟩
      by_cases hc : t.status = TimerStatus.completed
      · rcases hk with h | h
        · exact absurd hc h
        · simp [listKeeps, hc, h]
      · simp [listKeeps, hc]
  · rintro id ⟨t, htmem, hid⟩
    rcases hfind : store.find? (fun u => decide (u.id = id)) with _ | u
    · rw [List.find?_eq_none] at hfind
      exact absurd (by simp [hid]) (hfind t htmem)
    · exact ⟨u, hfind, by simpa using List.find?_some hfind⟩

theorem list_spec_witness :
    demoRunning ∈ list 100 [demoRunning]
    ∧ (∃ u, get_by_id 2 [demoRunning] = some u ∧ u.id = 2) := by
  constructor
  · exact ((list_spec 100 [demoRunning]).2.1 demoRunning).2
      ⟨List.mem_cons_self _ _, Or.inl (by decide)⟩
  · exact (list_spec 100 [demoRunning]).2.2 2 ⟨demoRunning, List.mem_cons_self _ _, rfl⟩

/-- C6: `remaining_seconds` is derived on every read and never negative: the
shared-mode response carries `max(expires_at − now, 0)` exactly when
`expires_at` is set and nothing when it is not, and every reported value is
at least 0; the standalone `remaining()` is duration saturating-minus
elapsed (natural subtraction). -/
theorem remaining_seconds_spec (now : Int) (t : Timer)
    (s : Standalone.TimerStatus) (m : Nat) :
    (toResponse now t).remaining_seconds = t.expires_at.map (fun e => max (e - now) 0)
    ∧ (∀ e, t.expires_at = some e →
        (toResponse now t).remaining_seconds = some (max (e - now) 0))
    ∧ (t.expires_at = none → (toResponse now t).remaining_seconds = none)
    ∧ (∀ r, (toResponse now t).remaining_seconds = some r → 0 ≤ r)
    ∧ Standalone.remaining s m = s.duration - Standalone.elapsed s m := by
  refine ⟨rfl, ?_, ?_, ?_, rfl⟩
  · intro e he
    simp [toResponse, he]
  · intro he
    simp [toResponse, he]
  · intro r hr
    rcases he : t.expires_at with _ | e
    · simp [toResponse, he] at hr
    · simp only [toResponse, he, Option.map_some', Option.some.injEq] at hr
      subst hr
      exact le_max_right (e - now) 0

theorem remaining_seconds_spec_witness :
    (toResponse 12 demoRunning).remaining_seconds = some 3
    ∧ (toResponse 12 demoPending).remaining_seconds = none
    ∧ Standalone.remaining Standalone.demoStatus 2000 = 3000 := by
  refine ⟨?_, ?_, ?_⟩
  · have h := (remaining_seconds_spec 12 demoRunning Standalone.demoStatus 2000).2.1 15 rfl
    rw [h]
    decide
  · exact (remaining_seconds_spec 12 demoPending Standalone.demoStatus 2000).2.2.1 rfl
  · have h := (remaining_seconds_spec 12 demoRunning Standalone.demoStatus 2000).2.2.2.2
    rw [h]
    decide

end Shared

end Ctrlsys

namespace Ctrlsys

namespace Shared

theorem sweep_expired_spec_witness :
    (complete_expired_timers 20 [demoRunning, demoPending]).1 =
      [completeRow demoRunning, demoPending]
    ∧ (complete_expired_timers 20 [demoRunning, demoPending]).2 =
      [completeRow demoRunning]
    ∧ (completeRow demoRunning).status = TimerStatus.completed := by
  have h := sweep_expired_spec 20 [demoRunning, demoPending]
  refine ⟨?_, ?_, (h.2.2.2 demoRunning).1⟩
  · rw [h.1]
    rfl
  · rw [h.2.1]
    rfl

end Shared

namespace Standalone

theorem update_state_spec_witness :
    (update_state demoStatus 6000).state = TimerState.completed := by
  have h := (update_state_spec demoStatus 6000).1
  rw [h]
  rfl

end Standalone

end Ctrlsys
